import Mathlib

/-!
Shallow embedding of the guest-seating script `wedding_seating_app.py`:
the guest directory (pandas DataFrame fragment), the query matcher,
the disambiguation labels, the search-term vocabulary, and the
floor-plan annotator (PIL image fragment with an explicit heap to
model in-place drawing).  Definitions are translated from the source;
theorems settle the specification claims.
-/

namespace WeddingApp

/-! ## Python string primitives

`str.strip` removes leading and trailing whitespace, `str.lower` and
`str.upper` map ASCII letters, `int(x)` truncates a real toward zero,
and `round(x)` rounds half to even (used only to state the spec's
claimed rounding).  Floats are modelled as rationals. -/

def stripList (l : List Char) : List Char :=
  ((l.dropWhile Char.isWhitespace).reverse.dropWhile Char.isWhitespace).reverse

def pyStrip (s : String) : String :=
  ⟨stripList s.data⟩

def pyLower (s : String) : String :=
  ⟨s.data.map Char.toLower⟩

def pyUpper (s : String) : String :=
  ⟨s.data.map Char.toUpper⟩

/-- Query normalization as performed by the script:
`final_search_query.strip().lower()`. -/
def normQ (s : String) : String :=
  pyLower (pyStrip s)

/-- Python `int()` applied to a rational: truncation toward zero
(ceiling for negative values, floor otherwise). -/
def pyInt (q : ℚ) : ℤ :=
  if q < 0 then ⌈q⌉ else ⌊q⌋

/-- Python 3 `round()` to an integer: round half to even. -/
def pyRound (q : ℚ) : ℤ :=
  let f := ⌊q⌋
  let r := q - (f : ℚ)
  if r < 1/2 then f
  else if 1/2 < r then f + 1
  else if f % 2 = 0 then f else f + 1

/-! ### Lemmas about the string primitives -/

theorem char_toNat_ofNat_of_valid {n : Nat} (h : n.isValidChar) :
    (Char.ofNat n).toNat = n := by
  rw [Char.ofNat, dif_pos h]
  rfl

theorem char_toLower_toNat (c : Char) :
    (Char.toLower c).toNat =
      if 65 ≤ c.toNat ∧ c.toNat ≤ 90 then c.toNat + 32 else c.toNat := by
  unfold Char.toLower
  by_cases h : c.toNat ≥ 65 ∧ c.toNat ≤ 90
  · rw [if_pos h, if_pos ⟨h.1, h.2⟩]
    exact char_toNat_ofNat_of_valid (Or.inl (by omega))
  · rw [if_neg h, if_neg (fun hc => h ⟨hc.1, hc.2⟩)]

theorem char_eq_iff_toNat {c d : Char} : c = d ↔ c.toNat = d.toNat := by
  constructor
  · intro h; rw [h]
  · intro h
    exact Char.ext (UInt32.toNat.inj h)

theorem char_toLower_eq_self {c : Char} (h : ¬(65 ≤ c.toNat ∧ c.toNat ≤ 90)) :
    Char.toLower c = c := by
  unfold Char.toLower
  rw [if_neg (fun hc => h ⟨hc.1, hc.2⟩)]

theorem char_toLower_idem (c : Char) :
    Char.toLower (Char.toLower c) = Char.toLower c := by
  by_cases h : 65 ≤ c.toNat ∧ c.toNat ≤ 90
  · apply char_toLower_eq_self
    rw [char_toLower_toNat, if_pos h]
    omega
  · rw [char_toLower_eq_self h, char_toLower_eq_self h]

theorem char_isWhitespace_iff (c : Char) :
    c.isWhitespace = true ↔
      (c.toNat = 32 ∨ c.toNat = 9 ∨ c.toNat = 13 ∨ c.toNat = 10) := by
  unfold Char.isWhitespace
  simp only [Bool.or_eq_true, decide_eq_true_eq]
  rw [@char_eq_iff_toNat c ' ', @char_eq_iff_toNat c '\t',
      @char_eq_iff_toNat c '\r', @char_eq_iff_toNat c '\n']
  have h1 : (' ' : Char).toNat = 32 := rfl
  have h2 : ('\t' : Char).toNat = 9 := rfl
  have h3 : ('\r' : Char).toNat = 13 := rfl
  have h4 : ('\n' : Char).toNat = 10 := rfl
  rw [h1, h2, h3, h4]
  tauto

theorem char_isWhitespace_toLower (c : Char) :
    (Char.toLower c).isWhitespace = c.isWhitespace := by
  by_cases h : 65 ≤ c.toNat ∧ c.toNat ≤ 90
  · have h1 : (Char.toLower c).isWhitespace = false := by
      rw [← Bool.not_eq_true, char_isWhitespace_iff, char_toLower_toNat, if_pos h]
      omega
    have h2 : c.isWhitespace = false := by
      rw [← Bool.not_eq_true, char_isWhitespace_iff]
      omega
    rw [h1, h2]
  · rw [char_toLower_eq_self h]

theorem dropWhile_idem (p : α → Bool) (l : List α) :
    (l.dropWhile p).dropWhile p = l.dropWhile p := by
  induction l with
  | nil => rfl
  | cons x xs ih =>
    rw [List.dropWhile_cons]
    by_cases h : p x = true
    · rw [if_pos h]; exact ih
    · rw [if_neg h, List.dropWhile_cons, if_neg h]

theorem dropWhile_eq_self_of_lstripped {p : α → Bool} {l : List α}
    (h : l.dropWhile p = l) {m : List α} (hm : m <+: l) :
    m.dropWhile p = m := by
  cases m with
  | nil => rfl
  | cons x xs =>
    obtain ⟨t, ht⟩ := hm
    have hx : p x = false := by
      rw [← ht] at h
      cases hpx : p x with
      | false => rfl
      | true =>
        rw [List.cons_append, List.dropWhile_cons, if_pos hpx] at h
        have := congrArg List.length h
        simp only [List.length_cons] at this
        have hle := (List.dropWhile_suffix (l := xs ++ t) p).length_le
        omega
    rw [List.dropWhile_cons, if_neg (by simp [hx])]

theorem stripList_idem (l : List Char) :
    stripList (stripList l) = stripList l := by
  unfold stripList
  set w := Char.isWhitespace
  set m := l.dropWhile w with hm
  have hmm : m.dropWhile w = m := by
    rw [hm]; exact dropWhile_idem w l
  set r := ((m.reverse.dropWhile w).reverse : List Char) with hr
  have hpre : r <+: m := by
    rw [hr]
    have h2 := List.reverse_prefix.mpr (List.dropWhile_suffix (l := m.reverse) w)
    rw [List.reverse_reverse] at h2
    exact h2
  have h1 : r.dropWhile w = r := dropWhile_eq_self_of_lstripped hmm hpre
  rw [h1, List.reverse_reverse, dropWhile_idem]

theorem dropWhile_map_of_pres {f : α → α} {p : α → Bool}
    (hp : ∀ c, p (f c) = p c) (l : List α) :
    (l.map f).dropWhile p = (l.dropWhile p).map f := by
  induction l with
  | nil => rfl
  | cons x xs ih =>
    simp only [List.map_cons, List.dropWhile_cons, hp x]
    by_cases h : p x = true
    · rw [if_pos h, if_pos h]; exact ih
    · rw [if_neg h, if_neg h, List.map_cons]

theorem stripList_map_toLower (l : List Char) :
    stripList (l.map Char.toLower) = (stripList l).map Char.toLower := by
  unfold stripList
  rw [dropWhile_map_of_pres char_isWhitespace_toLower,
      ← List.map_reverse,
      dropWhile_map_of_pres char_isWhitespace_toLower,
      ← List.map_reverse]

theorem pyStrip_pyLower_pyStrip (s : String) :
    pyStrip (pyLower (pyStrip s)) = pyLower (pyStrip s) := by
  unfold pyStrip pyLower
  simp only
  rw [stripList_map_toLower, stripList_idem]

theorem pyLower_idem (s : String) :
    pyLower (pyLower s) = pyLower s := by
  unfold pyLower
  simp only [List.map_map]
  congr 1
  apply List.map_congr_left
  intro c _
  exact char_toLower_idem c

theorem normQ_idem (s : String) : normQ (normQ s) = normQ s := by
  unfold normQ
  rw [pyStrip_pyLower_pyStrip, pyLower_idem]

/-! ## Data model: the guest directory

A pandas row is modelled by its three cells the script uses; a cell is
`Option String` (`none` is a missing value, pandas `NaN`).  A DataFrame
carries its column-name list: accessing a column that is not present
raises `KeyError`, and the relationship logic is gated on column
presence exactly as the script gates it. -/

structure Row where
  placardName : Option String
  relationship : Option String
  table : Option String
deriving DecidableEq, Repr

structure DataFrame where
  columns : List String
  rows : List Row
deriving DecidableEq, Repr

def DataFrame.hasCol (df : DataFrame) (c : String) : Bool :=
  df.columns.contains c

/-- The empty DataFrame (`pd.DataFrame()`): no columns, no rows. -/
def emptyDF : DataFrame := ⟨[], []⟩

/-- Embedding of `load_data`: a missing file or an unparsable content
yields the empty DataFrame; on success the column names are
whitespace-stripped (`df.columns = df.columns.str.strip()`). -/
def load_data (fileExists : Bool) (content : Option DataFrame) : DataFrame :=
  if fileExists = false then emptyDF
  else
    match content with
    | none => emptyDF
    | some df => { df with columns := df.columns.map pyStrip }

/-- Rendering of a cell by `str()` or an f-string: a missing value
prints as `nan`. -/
def strCell : Option String → String
  | some s => s
  | none => "nan"

/-- Case-insensitive comparison key used by `sorted(key=str.lower)`. -/
def caseLE (a b : String) : Bool :=
  decide (pyLower a ≤ pyLower b)

/-- Embedding of `get_search_terms`: `df['Placard Name']` raises
`KeyError` when the column is absent (modelled as `Except.error`);
`df.get('Relationship to Couple', pd.Series())` degrades to an empty
series.  Cells are `dropna`-ed, stripped, filtered non-empty,
set-deduplicated and sorted with key `str.lower`. -/
def get_search_terms (df : DataFrame) : Except String (List String) :=
  if df.hasCol "Placard Name" then
    let names := (df.rows.filterMap Row.placardName).map pyStrip
    let relationships :=
      if df.hasCol "Relationship to Couple" then
        (df.rows.filterMap Row.relationship).map pyStrip
      else []
    let all_terms := ((names ++ relationships).filter (fun t => t != "")).dedup
    Except.ok (all_terms.mergeSort caseLE)
  else Except.error "KeyError: Placard Name"

/-! ## Resolver: the match block -/

/-- One cell of the series `df[col].str.strip().str.lower().eq(q)`:
a missing value never equals the query (pandas yields `False`). -/
def cellEq (cell : Option String) (queryLower : String) : Bool :=
  match cell with
  | some s => pyLower (pyStrip s) == queryLower
  | none => false

/-- The row-level predicate of the initial-search block: placard-name
match, or relationship match when that column exists. -/
def rowMatches (hasRel : Bool) (queryLower : String) (row : Row) : Bool :=
  cellEq row.placardName queryLower ||
    (hasRel && cellEq row.relationship queryLower)

/-- Embedding of the initial-search block: an empty query is falsy
(`final_search_query` is `None`) and yields no matches; otherwise the
query is stripped and lower-cased and the directory is filtered. -/
def matchQuery (df : DataFrame) (q : String) : List Row :=
  if q = "" then []
  else df.rows.filter
    (rowMatches (df.hasCol "Relationship to Couple") (normQ q))

/-- Embedding of the `UniqueSelection` lambda: the condition
`'Relationship to Couple' in row` tests column presence (every row of
a DataFrame with that column satisfies it, even with a `NaN` value). -/
def uniqueSelection (hasRel : Bool) (row : Row) : String :=
  if hasRel then
    strCell row.placardName ++ " (" ++ strCell row.relationship ++ ")"
  else strCell row.placardName

/-- Disambiguation labels of a multi-match set, in match order. -/
def labelsOf (df : DataFrame) (initial_matches : List Row) : List String :=
  initial_matches.map (uniqueSelection (df.hasCol "Relationship to Couple"))

/-- Embedding of `found_table = str(final_match['Table'].iloc[0]).upper()`. -/
def foundTableOf (final_match : List Row) : Option String :=
  final_match.head?.map (fun r => pyUpper (strCell r.table))

/-! ## Seating-map annotator

PIL images are mutable Python objects: `Image.copy()` allocates a new
object and `ImageDraw.Draw(img).ellipse(...)` draws on `img` in place.
We model the object store as a heap (a list of images indexed by
reference) so that mutation and aliasing are explicit. -/

/-- Configuration constants of the script. -/
def TABLE_COORDS : List (String × ℤ × ℤ) :=
  [("VIP", (6250, 1820)),
   ("1", (7200, 1820)),
   ("2", (5065, 1820)),
   ("3", (4115, 2000)),
   ("4", (3650, 4100)),
   ("5", (2705, 4100)),
   ("6", (1750, 4100)),
   ("7", (800, 4100))]

def CIRCLE_RADIUS : ℤ := 35

def MAX_MAP_WIDTH_PIXELS : ℕ := 1800

/-- Dictionary lookup `TABLE_COORDS[t]` / membership `t in TABLE_COORDS`. -/
def lookupCoords (t : String) : Option (ℤ × ℤ) :=
  TABLE_COORDS.lookup t

/-- The scale factor computed by `load_map_image`: `1.0` when the
original width fits, else `MAX_MAP_WIDTH_PIXELS / original_width`. -/
def mapScaleFactor (originalWidth : ℕ) : ℚ :=
  if MAX_MAP_WIDTH_PIXELS < originalWidth then
    (MAX_MAP_WIDTH_PIXELS : ℚ) / (originalWidth : ℚ)
  else 1

/-- The argument record of one `draw.ellipse` call: the bounding box
`(x0, y0, x1, y1)`, the outline color and the stroke width. -/
structure Ellipse where
  x0 : ℤ
  y0 : ℤ
  x1 : ℤ
  y1 : ℤ
  outline : String
  strokeWidth : ℕ
deriving DecidableEq, Repr

/-- A PIL image: its loaded raster content plus the shapes drawn on it. -/
structure PILImage where
  pixels : List (List ℕ)
  overlays : List Ellipse
deriving DecidableEq, Repr

instance : Inhabited PILImage := ⟨⟨[], []⟩⟩

/-- The heap of live image objects; a reference is an index. -/
abbrev Heap := List PILImage

/-- `base_map.copy()`: allocate a fresh object with the same value. -/
def imageCopy (h : Heap) (r : ℕ) : Heap × ℕ :=
  (h ++ [(h[r]?).getD default], h.length)

/-- `ImageDraw.Draw(img).ellipse(...)`: draw on the object in place. -/
def drawOnRef (h : Heap) (r : ℕ) (e : Ellipse) : Heap :=
  h.set r { (h[r]?).getD default with
            overlays := ((h[r]?).getD default).overlays ++ [e] }

/-- The marker-drawing arithmetic of the script:
`x = int(original_x * MAP_SCALE_FACTOR)`, likewise `y`,
`scaled_radius = int(CIRCLE_RADIUS * MAP_SCALE_FACTOR)`, and the
ellipse call with bounding box `(x − r, y − r, x + r, y + r)`,
red outline, stroke width 10. -/
def markerEllipse (xy : ℤ × ℤ) (scale : ℚ) : Ellipse :=
  let x := pyInt ((xy.1 : ℚ) * scale)
  let y := pyInt ((xy.2 : ℚ) * scale)
  let scaled_radius := pyInt ((CIRCLE_RADIUS : ℚ) * scale)
  ⟨x - scaled_radius, y - scaled_radius,
   x + scaled_radius, y + scaled_radius, "#FF0000", 10⟩

/-- Outcome of the map-display block. -/
inductive MapDisplay where
  | marked (ref : ℕ)
  | warningUnmarked (ref : ℕ)
  | noMap
deriving DecidableEq, Repr

/-- Embedding of the map-display block (section 5.3 of the script):
when the base map exists and the table has coordinates, copy the base,
draw the scaled marker on the copy and show it; when the table has no
coordinates, warn and show the untouched base; without a base map,
show nothing. -/
def displayMap (h : Heap) (baseRef : Option ℕ) (found_table : String)
    (scale : ℚ) : Heap × MapDisplay :=
  match baseRef with
  | none => (h, MapDisplay.noMap)
  | some b =>
    match lookupCoords found_table with
    | some xy =>
      let copied := imageCopy h b
      (drawOnRef copied.1 copied.2 (markerEllipse xy scale),
       MapDisplay.marked copied.2)
    | none => (h, MapDisplay.warningUnmarked b)

/-! ## Concrete directories used as witnesses and counterexamples -/

/-- A one-guest directory without the relationship column. -/
def dfJane : DataFrame :=
  ⟨["Placard Name", "Table"],
   [⟨some "Jane Doe", none, some "3"⟩]⟩

/-- Two guests sharing a placard name; the second has a missing
relationship value while the column itself exists. -/
def dfJohn : DataFrame :=
  ⟨["Placard Name", "Relationship to Couple", "Table"],
   [⟨some "John Smith", some "Grooms Uncle", some "3"⟩,
    ⟨some "John Smith", none, some "4"⟩]⟩

/-- Two guests whose distinct field pairs format to the same label. -/
def dfClash : DataFrame :=
  ⟨["Placard Name", "Relationship to Couple", "Table"],
   [⟨some "A (B)", some "A", some "1"⟩,
    ⟨some "A", some "B) (A", some "2"⟩]⟩

/-- A directory with a whitespace-only placard cell. -/
def dfBlank : DataFrame :=
  ⟨["Placard Name", "Table"],
   [⟨some " ", none, some "1"⟩]⟩

/-- A small mixed directory with the relationship column. -/
def dfMixed : DataFrame :=
  ⟨["Placard Name", "Relationship to Couple", "Table"],
   [⟨some " bob ", some "Friend", some "2"⟩,
    ⟨some "Alice", none, some "3"⟩,
    ⟨some "alice", some "bob", some "7"⟩]⟩

/-! ## Claim theorems -/

/-- C5: for every non-empty query `q` and directory record `r`, `r`
is in `match(q)` exactly when its stripped lower-cased placard name
equals the stripped lower-cased query, or, when the relationship
column exists, its stripped lower-cased relationship does; matching
is exact equality. -/
theorem match_exact_iff (df : DataFrame) (r : Row) (q : String)
    (hq : q ≠ "") (hr : r ∈ df.rows) :
    r ∈ matchQuery df q ↔
      ((∃ p, r.placardName = some p ∧ pyLower (pyStrip p) = normQ q) ∨
       (df.hasCol "Relationship to Couple" = true ∧
        ∃ s, r.relationship = some s ∧ pyLower (pyStrip s) = normQ q)) := by
  unfold matchQuery
  rw [if_neg hq, List.mem_filter]
  simp only [hr, true_and]
  cases hp : r.placardName <;> cases hs : r.relationship <;>
    simp [rowMatches, cellEq, hp, hs]

/-- C5 witness: the Jane Doe record is matched by a case- and
whitespace-perturbed form of its placard name. -/
theorem match_exact_iff_witness :
    (⟨some "Jane Doe", none, some "3"⟩ : Row) ∈ matchQuery dfJane " JANE doe " :=
  (match_exact_iff dfJane ⟨some "Jane Doe", none, some "3"⟩ " JANE doe "
      (by decide) (by decide)).mpr
    (Or.inl ⟨"Jane Doe", rfl, by decide⟩)

/-- C6 counterexample: a whitespace-only query is truthy, normalizes
to the empty string and matches a whitespace-only placard cell, while
the trimmed lower-cased query is the falsy empty string and matches
nothing; so `match(q)` and `match(lowercase(trim(q)))` differ. -/
theorem match_normalization_counterexample :
    pyLower (pyStrip " ") = "" ∧
    matchQuery dfBlank " " = [⟨some " ", none, some "1"⟩] ∧
    matchQuery dfBlank (pyLower (pyStrip " ")) = [] := by
  refine ⟨rfl, by decide, by decide⟩

/-- C6 amended: for every query whose stripped form is non-empty, the
match result is invariant under stripping whitespace and lowering
case in the query. -/
theorem match_normalization_invariant (df : DataFrame) (q : String)
    (hq : pyStrip q ≠ "") :
    matchQuery df q = matchQuery df (pyLower (pyStrip q)) := by
  have hq0 : q ≠ "" := by
    intro h
    apply hq
    rw [h]
    rfl
  have hq1 : pyLower (pyStrip q) ≠ "" := by
    intro h
    apply hq
    have h2 := congrArg String.data h
    simp only [pyLower] at h2
    rw [List.map_eq_nil_iff] at h2
    exact String.ext h2
  unfold matchQuery
  rw [if_neg hq0, if_neg hq1]
  have hkey : normQ (pyLower (pyStrip q)) = normQ q := by
    rw [show normQ (pyLower (pyStrip q)) = normQ (normQ q) from rfl, normQ_idem]
  rw [hkey]

/-- C6 amended witness: padding and case changes do not affect the
match result for the Jane Doe query. -/
theorem match_normalization_invariant_witness :
    pyStrip " Jane Doe " ≠ "" ∧
    matchQuery dfJane " Jane Doe " = matchQuery dfJane "jane doe" := by
  refine ⟨by decide, ?_⟩
  rw [match_normalization_invariant dfJane " Jane Doe " (by decide)]
  decide

/-- C10 counterexample: a row whose relationship cell is missing is
still included in the match result when its placard name matches, so
rows with a missing cell are not categorically excluded. -/
theorem missing_cell_counterexample :
    (⟨some "John Smith", none, some "4"⟩ : Row).relationship = none ∧
    (⟨some "John Smith", none, some "4"⟩ : Row) ∈ matchQuery dfJohn "john smith" := by
  refine ⟨rfl, by decide⟩

/-- C10 amended: a missing cell is treated as not equal to any query,
so a row whose placard cell is missing and whose relationship cell is
missing or ungated (column absent) is never included in any match
result. -/
theorem missing_cells_never_match (df : DataFrame) (q : String) (r : Row)
    (hp : r.placardName = none)
    (hs : df.hasCol "Relationship to Couple" = false ∨ r.relationship = none) :
    (∀ query, cellEq none query = false) ∧ r ∉ matchQuery df q := by
  refine ⟨fun _ => rfl, ?_⟩
  unfold matchQuery
  by_cases hq : q = ""
  · rw [if_pos hq]
    exact List.not_mem_nil r
  · rw [if_neg hq]
    intro hmem
    rw [List.mem_filter] at hmem
    have hrm := hmem.2
    unfold rowMatches at hrm
    rw [hp] at hrm
    rcases hs with h | h <;> rw [h] at hrm <;> simp [cellEq] at hrm

/-- C10 amended witness: a row with both cells missing is not matched. -/
theorem missing_cells_never_match_witness :
    (∀ query, cellEq none query = false) ∧
    (⟨none, none, some "5"⟩ : Row) ∉ matchQuery dfJohn "john smith" :=
  missing_cells_never_match dfJohn "john smith" ⟨none, none, some "5"⟩
    rfl (Or.inr rfl)

/-- C3 counterexample: in a multi-match set over a directory that has
the relationship column, a record whose relationship value is missing
gets the label `John Smith (nan)`, not `John Smith` alone as the
claim requires. -/
theorem label_shape_counterexample :
    matchQuery dfJohn "john smith" =
      [⟨some "John Smith", some "Grooms Uncle", some "3"⟩,
       ⟨some "John Smith", none, some "4"⟩] ∧
    (⟨some "John Smith", none, some "4"⟩ : Row).relationship = none ∧
    labelsOf dfJohn (matchQuery dfJohn "john smith") =
      ["John Smith (Grooms Uncle)", "John Smith (nan)"] ∧
    ("John Smith (nan)" : String) ≠ "John Smith" := by
  refine ⟨by decide, rfl, by decide, by decide⟩

/-- C3 amended: the label shape is decided by column presence, not by
the record's own value: with the relationship column present the
label is `placard (relationship)` with a missing value rendered as
`nan`, and without the column it is the placard name alone. -/
theorem label_by_column_presence (df : DataFrame) (q : String) (r : Row)
    (_hr : r ∈ matchQuery df q) :
    (df.hasCol "Relationship to Couple" = true →
      uniqueSelection (df.hasCol "Relationship to Couple") r =
        strCell r.placardName ++ " (" ++ strCell r.relationship ++ ")") ∧
    (df.hasCol "Relationship to Couple" = false →
      uniqueSelection (df.hasCol "Relationship to Couple") r =
        strCell r.placardName) := by
  constructor <;> intro h <;> rw [uniqueSelection, h] <;> rfl

/-- C3 amended witness: the first John Smith record, matched with the
column present, is labelled with its relationship appended. -/
theorem label_by_column_presence_witness :
    uniqueSelection (dfJohn.hasCol "Relationship to Couple")
      ⟨some "John Smith", some "Grooms Uncle", some "3"⟩ =
      "John Smith (Grooms Uncle)" := by
  rw [(label_by_column_presence dfJohn "john smith"
        ⟨some "John Smith", some "Grooms Uncle", some "3"⟩ (by decide)).1
      (by decide)]
  decide

/-- C4 counterexample: two records of one match set whose
`(placard_name, relationship)` pairs are distinct can still format to
the same disambiguation label, because the parentheses of the format
string can be injected by the field values. -/
theorem label_collision_counterexample :
    matchQuery dfClash "a" =
      [⟨some "A (B)", some "A", some "1"⟩,
       ⟨some "A", some "B) (A", some "2"⟩] ∧
    ((⟨some "A (B)", some "A", some "1"⟩ : Row).placardName,
     (⟨some "A (B)", some "A", some "1"⟩ : Row).relationship) ≠
      ((⟨some "A", some "B) (A", some "2"⟩ : Row).placardName,
       (⟨some "A", some "B) (A", some "2"⟩ : Row).relationship) ∧
    labelsOf dfClash (matchQuery dfClash "a") =
      ["A (B) (A)", "A (B) (A)"] := by
  refine ⟨by decide, by decide, by decide⟩

/-- C4 amended: distinctness of labels is guaranteed only on the
rendered fields with equal placard names: for two records with the
same rendered placard name, the labels coincide exactly when the
rendered relationships coincide or the relationship column is absent. -/
theorem label_distinct_of_same_placard (df : DataFrame) (r1 r2 : Row)
    (hp : strCell r1.placardName = strCell r2.placardName) :
    (uniqueSelection (df.hasCol "Relationship to Couple") r1 =
      uniqueSelection (df.hasCol "Relationship to Couple") r2) ↔
    (df.hasCol "Relationship to Couple" = true →
      strCell r1.relationship = strCell r2.relationship) := by
  cases hcol : df.hasCol "Relationship to Couple" with
  | false =>
    simp [uniqueSelection, hp]
  | true =>
    simp only [uniqueSelection, if_pos, hp, forall_const]
    constructor
    · intro h
      have h2 := congrArg String.data h
      simp only [String.data_append] at h2
      have h3 := List.append_cancel_right h2
      have h4 := List.append_cancel_left h3
      exact String.ext h4
    · intro h
      rw [h]

/-- C4 amended witness: the two John Smith records share a placard
name, and their labels differ because their rendered relationships
differ. -/
theorem label_distinct_of_same_placard_witness :
    uniqueSelection (dfJohn.hasCol "Relationship to Couple")
        ⟨some "John Smith", some "Grooms Uncle", some "3"⟩ ≠
      uniqueSelection (dfJohn.hasCol "Relationship to Couple")
        ⟨some "John Smith", none, some "4"⟩ := by
  intro h
  have h2 := (label_distinct_of_same_placard dfJohn
      ⟨some "John Smith", some "Grooms Uncle", some "3"⟩
      ⟨some "John Smith", none, some "4"⟩ rfl).mp h (by decide)
  exact absurd h2 (by decide)

/-- C2: the guest-data loader reports a missing or unparsable source
by returning the empty DataFrame, but the vocabulary builder then
raises `KeyError` on the absent `Placard Name` column, so the
downstream pipeline does not degrade without raising. -/
theorem empty_directory_keyerror :
    load_data false none = emptyDF ∧
    load_data true none = emptyDF ∧
    get_search_terms emptyDF = Except.error "KeyError: Placard Name" :=
  ⟨rfl, rfl, rfl⟩

/-- C9: for every directory that has the placard column, the search
terms are exactly the non-empty stripped cell values of the placard
column plus, when the column exists, the relationship column; the
list has no duplicate strings and is sorted case-insensitively. -/
theorem search_terms_spec (df : DataFrame)
    (hp : df.hasCol "Placard Name" = true) :
    ∃ l, get_search_terms df = Except.ok l ∧
      (∀ t, t ∈ l ↔ (t ≠ "" ∧
        (t ∈ (df.rows.filterMap Row.placardName).map pyStrip ∨
         (df.hasCol "Relationship to Couple" = true ∧
          t ∈ (df.rows.filterMap Row.relationship).map pyStrip)))) ∧
      l.Nodup ∧ l.Pairwise (fun a b => caseLE a b = true) := by
  unfold get_search_terms
  simp only [hp, if_true]
  refine ⟨_, rfl, ?_, ?_, ?_⟩
  · intro t
    rw [List.mem_mergeSort, List.mem_dedup, List.mem_filter, List.mem_append]
    rw [bne_iff_ne]
    cases hrel : df.hasCol "Relationship to Couple" with
    | false => simp [hrel, and_comm]
    | true => simp [hrel, and_comm]
  · exact ((List.mergeSort_perm _ caseLE).nodup_iff).mpr (List.nodup_dedup _)
  · apply List.sorted_mergeSort
    · intro a b c hab hbc
      simp only [caseLE, decide_eq_true_eq] at hab hbc ⊢
      exact le_trans hab hbc
    · intro a b
      simp only [caseLE]
      rcases le_total (pyLower a) (pyLower b) with h | h
      · simp [h]
      · simp [h]

/-- C9 witness: the mixed directory has the placard column, so the
characterization applies to it. -/
theorem search_terms_spec_witness :
    ∃ l, get_search_terms dfMixed = Except.ok l ∧
      (∀ t, t ∈ l ↔ (t ≠ "" ∧
        (t ∈ (dfMixed.rows.filterMap Row.placardName).map pyStrip ∨
         (dfMixed.hasCol "Relationship to Couple" = true ∧
          t ∈ (dfMixed.rows.filterMap Row.relationship).map pyStrip)))) ∧
      l.Nodup ∧ l.Pairwise (fun a b => caseLE a b = true) :=
  search_terms_spec dfMixed (by decide)

/-! ## Annotator lemmas -/

theorem getElem?_append_singleton (l : List α) (a : α) :
    (l ++ [a])[l.length]? = some a := by
  rw [List.getElem?_append_right (le_refl _)]
  simp

/-- Reduction of the map-display block when the table has coordinates:
the base is copied to a fresh reference at the end of the heap and the
marker ellipse is drawn on that copy. -/
theorem displayMap_found (h : Heap) (b : ℕ) (t : String) (xy : ℤ × ℤ)
    (s : ℚ) (hc : lookupCoords t = some xy) :
    displayMap h (some b) t s =
      ((h ++ [(h[b]?).getD default]).set h.length
         { (h[b]?).getD default with
           overlays := ((h[b]?).getD default).overlays ++ [markerEllipse xy s] },
       MapDisplay.marked h.length) := by
  unfold displayMap
  rw [hc]
  unfold imageCopy drawOnRef
  simp only [getElem?_append_singleton, Option.getD_some]

/-- C1 amended: the marker is an ellipse drawn on the fresh copy of
the base, whose bounding box is centered at
`(int(x*scale), int(y*scale))` with radius `int(CIRCLE_RADIUS*scale)`,
where `int` is Python truncation toward zero (not `round`). -/
theorem marker_scaling (h : Heap) (b : ℕ) (t : String) (x y : ℤ) (s : ℚ)
    (hc : lookupCoords t = some (x, y)) :
    ∃ e : Ellipse,
      (displayMap h (some b) t s).1[h.length]? =
        some { (h[b]?).getD default with
               overlays := ((h[b]?).getD default).overlays ++ [e] } ∧
      (displayMap h (some b) t s).2 = MapDisplay.marked h.length ∧
      e.x0 + e.x1 = 2 * pyInt ((x : ℚ) * s) ∧
      e.y0 + e.y1 = 2 * pyInt ((y : ℚ) * s) ∧
      e.x1 - e.x0 = 2 * pyInt ((CIRCLE_RADIUS : ℚ) * s) ∧
      e.y1 - e.y0 = 2 * pyInt ((CIRCLE_RADIUS : ℚ) * s) := by
  refine ⟨markerEllipse (x, y) s, ?_, ?_, ?_, ?_, ?_, ?_⟩
  · rw [displayMap_found h b t (x, y) s hc]
    exact List.getElem?_set_self (by simp)
  · rw [displayMap_found h b t (x, y) s hc]
  all_goals simp only [markerEllipse]
  all_goals ring

/-- C1 amended witness: annotating table VIP at scale 1 on a one-image
heap draws an ellipse of truncated-scaled center and radius. -/
theorem marker_scaling_witness :
    ∃ e : Ellipse,
      (displayMap [⟨[[0]], []⟩] (some 0) "VIP" 1).1[1]? =
        some { (([⟨[[0]], []⟩] : Heap)[0]?).getD default with
               overlays :=
                 ((([⟨[[0]], []⟩] : Heap)[0]?).getD default).overlays ++ [e] } ∧
      (displayMap [⟨[[0]], []⟩] (some 0) "VIP" 1).2 = MapDisplay.marked 1 ∧
      e.x0 + e.x1 = 2 * pyInt ((6250 : ℚ) * 1) ∧
      e.y0 + e.y1 = 2 * pyInt ((1820 : ℚ) * 1) ∧
      e.x1 - e.x0 = 2 * pyInt ((CIRCLE_RADIUS : ℚ) * 1) ∧
      e.y1 - e.y0 = 2 * pyInt ((CIRCLE_RADIUS : ℚ) * 1) :=
  marker_scaling [⟨[[0]], []⟩] 0 "VIP" 6250 1820 1 (by decide)

/-- C1 counterexample: at the scale factor 1/2 (map of original width
3600) the marker for table 3 is drawn with radius 17 and center x
2057, while the claimed `round` semantics gives radius 18 and center
x 2058. -/
theorem marker_scaling_counterexample :
    mapScaleFactor 3600 = 1/2 ∧
    lookupCoords "3" = some (4115, 2000) ∧
    markerEllipse (4115, 2000) (mapScaleFactor 3600) =
      { x0 := 2040, y0 := 983, x1 := 2074, y1 := 1017,
        outline := "#FF0000", strokeWidth := 10 } ∧
    pyInt ((CIRCLE_RADIUS : ℚ) * mapScaleFactor 3600) = 17 ∧
    pyRound ((CIRCLE_RADIUS : ℚ) * mapScaleFactor 3600) = 18 ∧
    pyInt ((4115 : ℚ) * mapScaleFactor 3600) = 2057 ∧
    pyRound ((4115 : ℚ) * mapScaleFactor 3600) = 2058 := by
  have hs : mapScaleFactor 3600 = 1/2 := by
    norm_num [mapScaleFactor, MAX_MAP_WIDTH_PIXELS]
  refine ⟨hs, by decide, ?_, ?_, ?_, ?_, ?_⟩ <;> rw [hs] <;>
    norm_num [markerEllipse, pyInt, pyRound, CIRCLE_RADIUS]

theorem displayMap_found_fst (h : Heap) (b : ℕ) (t : String) (xy : ℤ × ℤ)
    (s : ℚ) (hc : lookupCoords t = some xy) :
    (displayMap h (some b) t s).1 =
      (h ++ [(h[b]?).getD default]).set h.length
        { (h[b]?).getD default with
          overlays := ((h[b]?).getD default).overlays ++ [markerEllipse xy s] } := by
  rw [displayMap_found h b t xy s hc]

theorem displayMap_found_snd (h : Heap) (b : ℕ) (t : String) (xy : ℤ × ℤ)
    (s : ℚ) (hc : lookupCoords t = some xy) :
    (displayMap h (some b) t s).2 = MapDisplay.marked h.length := by
  rw [displayMap_found h b t xy s hc]

theorem displayMap_length (h : Heap) (b : ℕ) (t : String) (xy : ℤ × ℤ)
    (s : ℚ) (hc : lookupCoords t = some xy) :
    (displayMap h (some b) t s).1.length = h.length + 1 := by
  rw [displayMap_found_fst h b t xy s hc]
  simp

theorem displayMap_get_base (h : Heap) (b i : ℕ) (t : String) (xy : ℤ × ℤ)
    (s : ℚ) (hc : lookupCoords t = some xy) (hi : i < h.length) :
    (displayMap h (some b) t s).1[i]? = h[i]? := by
  rw [displayMap_found_fst h b t xy s hc,
      List.getElem?_set_ne (by omega), List.getElem?_append_left hi]

theorem displayMap_get_top (h : Heap) (b : ℕ) (t : String) (xy : ℤ × ℤ)
    (s : ℚ) (hc : lookupCoords t = some xy) :
    (displayMap h (some b) t s).1[h.length]? =
      some { (h[b]?).getD default with
             overlays := ((h[b]?).getD default).overlays ++ [markerEllipse xy s] } := by
  rw [displayMap_found_fst h b t xy s hc]
  exact List.getElem?_set_self (by simp)

/-- C7: the map-display block never mutates the base image object:
after two annotations with different table ids, the base heap cell is
untouched and the two outputs are fresh, independent objects, each
being the original base value with exactly its own marker appended. -/
theorem annotate_preserves_base (h : Heap) (b : ℕ) (t1 t2 : String)
    (xy1 xy2 : ℤ × ℤ) (s : ℚ) (hb : b < h.length)
    (hc1 : lookupCoords t1 = some xy1) (hc2 : lookupCoords t2 = some xy2) :
    (displayMap h (some b) t1 s).1[b]? = h[b]? ∧
    (displayMap (displayMap h (some b) t1 s).1 (some b) t2 s).1[b]? = h[b]? ∧
    (displayMap h (some b) t1 s).2 = MapDisplay.marked h.length ∧
    (displayMap (displayMap h (some b) t1 s).1 (some b) t2 s).2 =
      MapDisplay.marked (h.length + 1) ∧
    (displayMap (displayMap h (some b) t1 s).1 (some b) t2 s).1[h.length]? =
      some { (h[b]?).getD default with
             overlays := ((h[b]?).getD default).overlays ++ [markerEllipse xy1 s] } ∧
    (displayMap (displayMap h (some b) t1 s).1 (some b) t2 s).1[h.length + 1]? =
      some { (h[b]?).getD default with
             overlays := ((h[b]?).getD default).overlays ++ [markerEllipse xy2 s] } := by
  have len1 : (displayMap h (some b) t1 s).1.length = h.length + 1 :=
    displayMap_length h b t1 xy1 s hc1
  have conj1 : (displayMap h (some b) t1 s).1[b]? = h[b]? :=
    displayMap_get_base h b b t1 xy1 s hc1 hb
  refine ⟨conj1, ?_, displayMap_found_snd h b t1 xy1 s hc1, ?_, ?_, ?_⟩
  · rw [displayMap_get_base _ b b t2 xy2 s hc2 (by omega)]
    exact conj1
  · rw [displayMap_found_snd _ b t2 xy2 s hc2, len1]
  · rw [displayMap_get_base _ b h.length t2 xy2 s hc2 (by omega)]
    exact displayMap_get_top h b t1 xy1 s hc1
  · rw [← len1, displayMap_get_top _ b t2 xy2 s hc2, conj1]

/-- C7 witness: two successive annotations of a one-image heap with
tables VIP and 1 at scale 1. -/
theorem annotate_preserves_base_witness :
    (displayMap (displayMap [⟨[[0]], []⟩] (some 0) "VIP" 1).1
        (some 0) "1" 1).1[0]? = ([⟨[[0]], []⟩] : Heap)[0]? :=
  (annotate_preserves_base [⟨[[0]], []⟩] 0 "VIP" "1" (6250, 1820) (7200, 1820) 1
    (by decide) (by decide) (by decide)).2.1

/-- C8: the table id is upper-cased (after `str()` rendering) before
the coordinate lookup, and when the upper-cased id has no entry in
`TABLE_COORDS` the display block performs no drawing: it leaves the
heap untouched and shows the unmarked base with a warning. -/
theorem coordinates_missing_fallback (h : Heap) (b : ℕ) (r : Row)
    (rest : List Row) (s : ℚ)
    (hmiss : lookupCoords (pyUpper (strCell r.table)) = none) :
    foundTableOf (r :: rest) = some (pyUpper (strCell r.table)) ∧
    displayMap h (some b) (pyUpper (strCell r.table)) s =
      (h, MapDisplay.warningUnmarked b) := by
  refine ⟨rfl, ?_⟩
  unfold displayMap
  rw [hmiss]

/-- C8 witness: table 9 has no configured coordinates, so its lookup
falls back to the warning display on an untouched heap. -/
theorem coordinates_missing_fallback_witness :
    foundTableOf [⟨some "Jane Doe", none, some "9"⟩] =
      some (pyUpper (strCell (some "9"))) ∧
    displayMap [⟨[[0]], []⟩] (some 0) (pyUpper (strCell (some "9"))) 1 =
      ([⟨[[0]], []⟩], MapDisplay.warningUnmarked 0) :=
  coordinates_missing_fallback [⟨[[0]], []⟩] 0 ⟨some "Jane Doe", none, some "9"⟩
    [] 1 (by decide)

end WeddingApp
